import Mathlib

/-!
Verification of the legal-document analyzer core
(`google_legal_analyzer.py`): a shallow embedding of the
document-type classifier, the template registry, the prompt synthesizer,
the response parser and the analysis orchestrator, together with proofs
of the specified properties.

Conventions of the embedding:
* Python strings are modelled as `List Char` (`Str`).
* The remote generative model ("Model Client") is a parameter
  `model : Str → Except Unit Str`: a deterministic function from prompt to
  either a reply string or a raised error.
* The text extractor is a parameter `Except Str Str` (error message or text).
* `json.loads` is modelled by the executable strict-JSON parser `loads`
  below; JSON numbers keep their integer value when integral and their
  source lexeme otherwise, so no floating point is involved.
* Fallible Python code returns `Except`; the only exception the response
  parser can itself raise (an uncaught `IndexError` from `lines[1]`) is
  modelled by `PyError.indexError`.
-/

abbrev Str := List Char

def toStr (s : String) : Str := s.toList

/-- Python `str.strip()` whitespace predicate (ASCII whitespace as in Python:
space, tab, newline, carriage return, vertical tab, form feed). -/
def isPySpace (c : Char) : Bool :=
  c == ' ' || c == '\t' || c == '\n' || c == '\r' ||
  c == Char.ofNat 11 || c == Char.ofNat 12

/-- Python `str.strip()`: drop whitespace from both ends. -/
def pyStrip (s : Str) : Str :=
  ((s.dropWhile isPySpace).reverse.dropWhile isPySpace).reverse

/-- Python `str.lower()` (ASCII case mapping). -/
def pyLower (s : Str) : Str := s.map Char.toLower

/-- Python `str.upper()` (ASCII case mapping). -/
def pyUpper (s : Str) : Str := s.map Char.toUpper

/-- Python `str.split('\n')`. -/
def splitOnNl : Str → List Str
  | [] => [[]]
  | c :: cs =>
    if c = '\n' then [] :: splitOnNl cs
    else
      match splitOnNl cs with
      | [] => [[c]]
      | l :: ls => (c :: l) :: ls

/-- Python `'\n'.join(lines)`. -/
def joinNl : List Str → Str
  | [] => []
  | [l] => l
  | l :: ls => l ++ '\n' :: joinNl ls

/-- First-match association-list lookup (Python `dict` read, `in` test). -/
def lookupKV {α : Type} : List (Str × α) → Str → Option α
  | [], _ => none
  | (k, v) :: rest, key => if k = key then some v else lookupKV rest key

/-- Python `dict` item assignment: update the first entry with the key in
place, or append a new entry (insertion order preserved). -/
def insertKV {α : Type} : List (Str × α) → Str → α → List (Str × α)
  | [], key, v => [(key, v)]
  | (k, w) :: rest, key, v =>
    if k = key then (k, v) :: rest else (k, w) :: insertKV rest key v

/-- Values produced by `json.loads` (and the Python dict/list/str values the
analyzer builds itself). Integral JSON numbers are Python `int`s; any other
numeric literal keeps its source lexeme (avoiding float semantics). -/
inductive Json where
  | null
  | bool (b : Bool)
  | int (n : Int)
  | float (lexeme : Str)
  | str (s : Str)
  | arr (elems : List Json)
  | obj (entries : List (Str × Json))

def Json.isObj : Json → Bool
  | .obj _ => true
  | _ => false

/-- Field read on a parsed result: defined only for JSON objects. -/
def getField (j : Json) (k : Str) : Option Json :=
  match j with
  | .obj entries => lookupKV entries k
  | _ => none

/-- The one exception `_parse_ai_response` can raise itself: `lines[1]` on a
fence reply with fewer than two lines. -/
inductive PyError where
  | indexError
deriving DecidableEq

/-- Diagnostics of the modelled `json.loads` (Python `JSONDecodeError`). -/
inductive JsonErr where
  | expectingValue (pos : Nat)
  | unterminatedString (pos : Nat)
  | invalidEscape (pos : Nat)
  | invalidControl (pos : Nat)
  | invalidHex (pos : Nat)
  | expectingPropertyName (pos : Nat)
  | expectingColon (pos : Nat)
  | expectingCommaOrEnd (pos : Nat)
  | extraData (pos : Nat)
deriving DecidableEq

/-- Render a `JSONDecodeError` to its (always non-empty) message string. -/
def JsonErr.msg : JsonErr → Str
  | .expectingValue p => toStr "Expecting value: char " ++ Nat.toDigits 10 p
  | .unterminatedString p =>
      toStr "Unterminated string starting at: char " ++ Nat.toDigits 10 p
  | .invalidEscape p => toStr "Invalid \\escape: char " ++ Nat.toDigits 10 p
  | .invalidControl p =>
      toStr "Invalid control character at: char " ++ Nat.toDigits 10 p
  | .invalidHex p => toStr "Invalid \\uXXXX escape: char " ++ Nat.toDigits 10 p
  | .expectingPropertyName p =>
      toStr "Expecting property name enclosed in double quotes: char " ++
        Nat.toDigits 10 p
  | .expectingColon p =>
      toStr "Expecting colon delimiter: char " ++ Nat.toDigits 10 p
  | .expectingCommaOrEnd p =>
      toStr "Expecting comma delimiter: char " ++ Nat.toDigits 10 p
  | .extraData p => toStr "Extra data: char " ++ Nat.toDigits 10 p

/-- JSON whitespace accepted between tokens by `json.loads`. -/
def jsonWs (c : Char) : Bool := c == ' ' || c == '\t' || c == '\n' || c == '\r'

def skipWs : Nat → Str → Nat × Str
  | p, c :: cs => if jsonWs c then skipWs (p + 1) cs else (p, c :: cs)
  | p, [] => (p, [])

def takeDigits : Nat → Str → Str × Nat × Str
  | p, c :: cs =>
    if c.isDigit then
      match takeDigits (p + 1) cs with
      | (d, p2, r) => (c :: d, p2, r)
    else ([], p, c :: cs)
  | p, [] => ([], p, [])

def digitsToNat (ds : Str) : Nat :=
  ds.foldl (fun acc c => 10 * acc + (c.toNat - 48)) 0

def hexVal (c : Char) : Option Nat :=
  if c.isDigit then some (c.toNat - 48)
  else if 'a' ≤ c && c ≤ 'f' then some (c.toNat - 87)
  else if 'A' ≤ c && c ≤ 'F' then some (c.toNat - 55)
  else none

/-- Parse a JSON number (Python `json` grammar
`-?(0|[1-9][0-9]*)(\.[0-9]+)?([eE][+-]?[0-9]+)?`); returns a Python `int`
when the literal has no fraction/exponent, the lexeme otherwise. -/
def parseNumber (p0 : Nat) (s : Str) : Except JsonErr (Json × Nat × Str) :=
  let signed := match s with
    | c :: cs => if c = '-' then (true, toStr "-", p0 + 1, cs)
                 else (false, ([] : Str), p0, s)
    | [] => (false, ([] : Str), p0, s)
  match signed with
  | (neg, sgn, p1, s1) =>
    let ipart : Option (Str × Nat × Str) := match s1 with
      | c :: cs =>
        if c = '0' then some (toStr "0", p1 + 1, cs)
        else if c.isDigit then
          match takeDigits p1 s1 with
          | (ds, p2, s2) => some (ds, p2, s2)
        else none
      | [] => none
    match ipart with
    | none => .error (.expectingValue p0)
    | some (ip, p2, s2) =>
      let fpart : Str × Nat × Str := match s2 with
        | '.' :: c :: cs =>
          if c.isDigit then
            match takeDigits (p2 + 1) (c :: cs) with
            | (ds, p3, s3) => ('.' :: ds, p3, s3)
          else ([], p2, s2)
        | _ => ([], p2, s2)
      match fpart with
      | (fp, p3, s3) =>
        let epart : Str × Nat × Str := match s3 with
          | e :: rest =>
            if e = 'e' || e = 'E' then
              match rest with
              | c :: cs =>
                if c = '+' || c = '-' then
                  match cs with
                  | d :: _ =>
                    if d.isDigit then
                      match takeDigits (p3 + 2) cs with
                      | (ds, p4, s4) => (e :: c :: ds, p4, s4)
                    else ([], p3, s3)
                  | [] => ([], p3, s3)
                else if c.isDigit then
                  match takeDigits (p3 + 1) rest with
                  | (ds, p4, s4) => (e :: ds, p4, s4)
                else ([], p3, s3)
              | [] => ([], p3, s3)
            else ([], p3, s3)
          | [] => ([], p3, s3)
        match epart with
        | (ep, p4, s4) =>
          if fp = [] ∧ ep = [] then
            let n : Int := Int.ofNat (digitsToNat ip)
            .ok (.int (if neg then -n else n), p4, s4)
          else .ok (.float (sgn ++ ip ++ fp ++ ep), p4, s4)

mutual

/-- Parse one JSON value (the scanner of Python `json.loads`); fuelled, with
fuel bounded below by the nesting depth so it never runs out on real input. -/
def parseValue : Nat → Nat → Str → Except JsonErr (Json × Nat × Str)
  | 0, p, _ => .error (.expectingValue p)
  | fuel + 1, p, s =>
    match s with
    | [] => .error (.expectingValue p)
    | c :: cs =>
      if c = '{' then
        match skipWs (p + 1) cs with
        | (p1, s1) =>
          match s1 with
          | '}' :: r => .ok (.obj [], p1 + 1, r)
          | _ => parseMembers fuel [] p1 s1
      else if c = '[' then
        match skipWs (p + 1) cs with
        | (p1, s1) =>
          match s1 with
          | ']' :: r => .ok (.arr [], p1 + 1, r)
          | _ => parseElems fuel [] p1 s1
      else if c = '"' then
        match parseJStr fuel p (p + 1) cs with
        | .error e => .error e
        | .ok (str, p1, s1) => .ok (.str str, p1, s1)
      else if c = 't' then
        match cs with
        | 'r' :: 'u' :: 'e' :: r => .ok (.bool true, p + 4, r)
        | _ => .error (.expectingValue p)
      else if c = 'f' then
        match cs with
        | 'a' :: 'l' :: 's' :: 'e' :: r => .ok (.bool false, p + 5, r)
        | _ => .error (.expectingValue p)
      else if c = 'n' then
        match cs with
        | 'u' :: 'l' :: 'l' :: r => .ok (.null, p + 4, r)
        | _ => .error (.expectingValue p)
      else if c = 'N' then
        match cs with
        | 'a' :: 'N' :: r => .ok (.float (toStr "NaN"), p + 3, r)
        | _ => .error (.expectingValue p)
      else if c = 'I' then
        match cs with
        | 'n' :: 'f' :: 'i' :: 'n' :: 'i' :: 't' :: 'y' :: r =>
          .ok (.float (toStr "Infinity"), p + 8, r)
        | _ => .error (.expectingValue p)
      else if c = '-' then
        match cs with
        | 'I' :: 'n' :: 'f' :: 'i' :: 'n' :: 'i' :: 't' :: 'y' :: r =>
          .ok (.float (toStr "-Infinity"), p + 9, r)
        | _ => parseNumber p (c :: cs)
      else if c.isDigit then parseNumber p (c :: cs)
      else .error (.expectingValue p)

/-- Parse the members of a JSON object after at least one is known to
follow; Python dict semantics: a repeated key overwrites in place. -/
def parseMembers : Nat → List (Str × Json) → Nat → Str →
    Except JsonErr (Json × Nat × Str)
  | 0, _, p, _ => .error (.expectingPropertyName p)
  | fuel + 1, acc, p, s =>
    match s with
    | '"' :: r =>
      match parseJStr fuel p (p + 1) r with
      | .error e => .error e
      | .ok (key, p2, s2) =>
        match skipWs p2 s2 with
        | (p3, s3) =>
          match s3 with
          | ':' :: r3 =>
            match skipWs (p3 + 1) r3 with
            | (p4, s4) =>
              match parseValue fuel p4 s4 with
              | .error e => .error e
              | .ok (v, p5, s5) =>
                let acc2 := insertKV acc key v
                match skipWs p5 s5 with
                | (p6, s6) =>
                  match s6 with
                  | ',' :: r6 =>
                    match skipWs (p6 + 1) r6 with
                    | (p7, s7) => parseMembers fuel acc2 p7 s7
                  | '}' :: r6 => .ok (.obj acc2, p6 + 1, r6)
                  | _ => .error (.expectingCommaOrEnd p6)
          | _ => .error (.expectingColon p3)
    | _ => .error (.expectingPropertyName p)

/-- Parse the elements of a JSON array after at least one is known to follow. -/
def parseElems : Nat → List Json → Nat → Str → Except JsonErr (Json × Nat × Str)
  | 0, _, p, _ => .error (.expectingValue p)
  | fuel + 1, acc, p, s =>
    match parseValue fuel p s with
    | .error e => .error e
    | .ok (v, p2, s2) =>
      let acc2 := acc ++ [v]
      match skipWs p2 s2 with
      | (p3, s3) =>
        match s3 with
        | ',' :: r3 =>
          match skipWs (p3 + 1) r3 with
          | (p4, s4) => parseElems fuel acc2 p4 s4
        | ']' :: r3 => .ok (.arr acc2, p3 + 1, r3)
        | _ => .error (.expectingCommaOrEnd p3)

/-- Parse the body of a JSON string (opening quote already consumed);
`pstart` is the position of the opening quote for diagnostics. -/
def parseJStr : Nat → Nat → Nat → Str → Except JsonErr (Str × Nat × Str)
  | 0, pstart, _, _ => .error (.unterminatedString pstart)
  | fuel + 1, pstart, p, s =>
    match s with
    | [] => .error (.unterminatedString pstart)
    | c :: cs =>
      if c = '"' then .ok ([], p + 1, cs)
      else if c = '\\' then
        match cs with
        | [] => .error (.unterminatedString pstart)
        | e :: cs2 =>
          let esc : Option Char :=
            if e = '"' then some '"'
            else if e = '\\' then some '\\'
            else if e = '/' then some '/'
            else if e = 'b' then some (Char.ofNat 8)
            else if e = 'f' then some (Char.ofNat 12)
            else if e = 'n' then some '\n'
            else if e = 'r' then some '\r'
            else if e = 't' then some '\t'
            else none
          match esc with
          | some ch =>
            match parseJStr fuel pstart (p + 2) cs2 with
            | .error err => .error err
            | .ok (rest, p2, s2) => .ok (ch :: rest, p2, s2)
          | none =>
            if e = 'u' then
              match cs2 with
              | h1 :: h2 :: h3 :: h4 :: cs3 =>
                match hexVal h1, hexVal h2, hexVal h3, hexVal h4 with
                | some a, some b, some c2, some d =>
                  let code := ((a * 16 + b) * 16 + c2) * 16 + d
                  match parseJStr fuel pstart (p + 6) cs3 with
                  | .error err => .error err
                  | .ok (rest, p2, s2) => .ok (Char.ofNat code :: rest, p2, s2)
                | _, _, _, _ => .error (.invalidHex (p + 1))
              | _ => .error (.invalidHex (p + 1))
            else .error (.invalidEscape (p + 1))
      else if c.toNat < 32 then .error (.invalidControl p)
      else
        match parseJStr fuel pstart (p + 1) cs with
        | .error err => .error err
        | .ok (rest, p2, s2) => .ok (c :: rest, p2, s2)

end

/-- Model of Python `json.loads`: strict JSON with surrounding whitespace,
`NaN`/`Infinity` accepted as in the stdlib default. -/
def loads (s : Str) : Except JsonErr Json :=
  match skipWs 0 s with
  | (p, r) =>
    match parseValue (s.length + 1) p r with
    | .error e => .error e
    | .ok (v, p2, r2) =>
      match skipWs p2 r2 with
      | (p3, r3) =>
        match r3 with
        | [] => .ok v
        | _ => .error (.extraData p3)

/-- The triple-backtick code-fence marker. -/
def fence : Str := toStr "```"

/-- Index of the closing fence line: the Python loop
`for i in range(len(lines)-1, -1, -1): if lines[i].strip() == '```': end_idx = i; break`,
i.e. the largest index whose stripped line is the fence, defaulting to
`len(lines) - 1` when no line matches. -/
def lastFence : List Str → Option Nat
  | [] => none
  | l :: ls =>
    match lastFence ls with
    | some i => some (i + 1)
    | none => if pyStrip l = fence then some 0 else none

def findFenceEnd (lines : List Str) : Nat :=
  (lastFence lines).getD (lines.length - 1)

/-- The fence-stripping preamble of `_parse_ai_response` (lines 588-601):
strip the reply, and when it starts with a fence take the lines strictly
between `start_idx` and the closing fence. Accessing `lines[1]` raises
`IndexError` when the stripped reply is a single fence-opening line. -/
def stripFences (t : Str) : Except PyError Str :=
  if t.take 3 = fence then
    match splitOnNl t with
    | l0 :: l1 :: rest =>
      let lines := l0 :: l1 :: rest
      let start_idx := if pyLower (pyStrip l1) = toStr "json" then 2 else 1
      let end_idx := findFenceEnd lines
      .ok (joinNl ((lines.drop start_idx).take (end_idx - start_idx)))
    | _ => .error .indexError
  else .ok t

/-- The single recommendation item of the parse-failure fallback. -/
def recommendationItem : Json :=
  .obj [
    (toStr "item", .str (toStr "Manual review recommended")),
    (toStr "severity", .str (toStr "HIGH")),
    (toStr "explanation",
      .str (toStr "The automated analysis encountered formatting issues. Please review the raw response above.")),
    (toStr "action", .str (toStr "Contact support or retry the analysis"))
  ]

/-- The fixed fallback `AnalysisResult` returned when `json.loads` fails;
`response_text` here is the trimmed, fence-stripped reply, as the source
reassigns `response_text` before parsing. -/
def fallbackResult (errMsg : Str) (response_text : Str) : Json :=
  .obj [
    (toStr "documentType", .str (toStr "Document Analysis")),
    (toStr "summary",
      .str (toStr "The document was analyzed but the response could not be parsed into structured format. The AI may have provided analysis in an unexpected format.")),
    (toStr "error", .str (toStr "JSON parsing failed")),
    (toStr "errorDetails", .str errMsg),
    (toStr "rawResponse",
      .str (if 1000 < response_text.length
            then response_text.take 1000 ++ toStr "..."
            else response_text)),
    (toStr "recommendations", .arr [recommendationItem])
  ]

/-- `_parse_ai_response`: strip, remove an optional code fence, `json.loads`;
a `JSONDecodeError` is converted to the fallback result, while the
`IndexError` possible in the fence handling propagates. -/
def parse_ai_response (response_text : Str) : Except PyError Json :=
  match stripFences (pyStrip response_text) with
  | .error e => .error e
  | .ok t =>
    match loads t with
    | .ok v => .ok v
    | .error e => .ok (fallbackResult (JsonErr.msg e) t)

/-- The closed set of supported document types (`valid_types`,
`_detect_document_type` lines 219-224). -/
def validTypes : List Str :=
  [toStr "contract", toStr "nda", toStr "will", toStr "lease",
   toStr "employment", toStr "partnership", toStr "power_of_attorney",
   toStr "license", toStr "settlement", toStr "corporate",
   toStr "real_estate", toStr "court_order", toStr "judgment",
   toStr "affidavit", toStr "legal_notice", toStr "insurance",
   toStr "loan", toStr "general"]

def detectionPromptHead : Str :=
  toStr "You are a specialized legal document classifier. Analyze this legal document and determine its EXACT type.\n\nDOCUMENT TO CLASSIFY:\n"

def detectionPromptTail : Str :=
  toStr "\n\nYour task is to classify this document into ONE of these specific categories:\n\nðŸ“‹ CONTRACT TYPES:\n- contract: Business agreements, service contracts, purchase agreements\n- nda: Non-disclosure agreements, confidentiality agreements  \n- employment: Employment contracts, job agreements, work contracts\n- lease: Rental agreements, property lease documents\n- partnership: Business partnership agreements, joint ventures\n- license: Licensing agreements, software licenses, IP licenses\n- settlement: Legal settlement agreements, dispute resolutions\n- loan: Loan agreements, promissory notes, credit agreements\n- insurance: Insurance policies, insurance agreements" ++
  toStr "\n\nðŸ“Š CORPORATE & PROPERTY:\n- corporate: Corporate bylaws, articles of incorporation, board resolutions\n- real_estate: Property purchase agreements, real estate transactions\n- power_of_attorney: Legal power of attorney documents\n\nâš–ï¸ COURT & LEGAL DOCUMENTS:\n- judgment: Court judgments, judicial decisions, court rulings with legal reasoning\n- court_order: Court orders, directives, injunctions (commands from court)\n- affidavit: Sworn statements, affidavits, statutory declarations\n- legal_notice: Legal notices, cease and desist letters, demand letters" ++
  toStr "\n\nðŸ” CLASSIFICATION INSTRUCTIONS:\n1. Read the document carefully and identify its primary legal purpose\n2. Look for specific legal language, document structure, and format\n3. Pay attention to Indian/international legal terminology\n4. Distinguish between court judgments (decisions with reasoning) vs court orders (directives)\n5. Consider the document\x27s main function and legal effect\n\nCRITICAL: Return ONLY the exact category name (one word), nothing else.\n\nDocument Type:"

/-- The classification prompt: only a leading 4000-character window of the
document is inspected (`document_text[:4000]`). -/
def detectionPrompt (document_text : Str) : Str :=
  detectionPromptHead ++ document_text.take 4000 ++ detectionPromptTail

/-- `_detect_document_type`: one model call, reply trimmed and lowercased,
validated against `validTypes`; any model error degrades to `general`. -/
def detect_document_type (model : Str → Except Unit Str)
    (document_text : Str) : Str :=
  match model (detectionPrompt document_text) with
  | .error _ => toStr "general"
  | .ok reply =>
    let detected_type := pyLower (pyStrip reply)
    if validTypes.contains detected_type then detected_type
    else toStr "general"

/-- An analysis template: ordered output fields and the analysis focus. -/
structure Template where
  fields : List Str
  focus : Str
deriving DecidableEq

/-- The 18 hand-curated templates of `_get_document_template`. -/
def templates : List (Str × Template) :=
  [(toStr "contract",
    ⟨[toStr "documentType", toStr "summary", toStr "parties", toStr "keyTerms",
      toStr "obligations", toStr "deliverables", toStr "timeline",
      toStr "paymentTerms", toStr "terminationClauses", toStr "penalties",
      toStr "disputeResolution", toStr "risks", toStr "recommendations"],
     toStr "contractual obligations, performance requirements, and legal commitments"⟩),
   (toStr "nda",
    ⟨[toStr "documentType", toStr "summary", toStr "parties",
      toStr "confidentialInfo", toStr "restrictions", toStr "duration",
      toStr "exceptions", toStr "returnRequirements", toStr "penalties",
      toStr "risks", toStr "recommendations"],
     toStr "confidentiality obligations, information protection, and disclosure restrictions"⟩),
   (toStr "will",
    ⟨[toStr "documentType", toStr "summary", toStr "testator", toStr "executor",
      toStr "beneficiaries", toStr "assets", toStr "bequests",
      toStr "guardianship", toStr "conditions", toStr "witnesses",
      toStr "risks", toStr "recommendations"],
     toStr "asset distribution, beneficiary rights, and estate planning"⟩),
   (toStr "lease",
    ⟨[toStr "documentType", toStr "summary", toStr "parties", toStr "property",
      toStr "rentAmount", toStr "leaseTerm", toStr "responsibilities",
      toStr "restrictions", toStr "renewalOptions", toStr "terminationConditions",
      toStr "securityDeposit", toStr "risks", toStr "recommendations"],
     toStr "rental obligations, property usage rights, and tenancy terms"⟩),
   (toStr "employment",
    ⟨[toStr "documentType", toStr "summary", toStr "parties", toStr "position",
      toStr "salary", toStr "benefits", toStr "duties", toStr "workingConditions",
      toStr "terminationConditions", toStr "confidentiality", toStr "nonCompete",
      toStr "risks", toStr "recommendations"],
     toStr "employment terms, job responsibilities, and worker rights"⟩),
   (toStr "partnership",
    ⟨[toStr "documentType", toStr "summary", toStr "partners",
      toStr "businessPurpose", toStr "capitalContributions", toStr "profitSharing",
      toStr "managementStructure", toStr "decisionMaking", toStr "dissolution",
      toStr "liabilities", toStr "risks", toStr "recommendations"],
     toStr "business partnership terms, profit sharing, and management responsibilities"⟩),
   (toStr "power_of_attorney",
    ⟨[toStr "documentType", toStr "summary", toStr "principal", toStr "agent",
      toStr "powers", toStr "limitations", toStr "duration", toStr "conditions",
      toStr "revocation", toStr "witnessRequirements", toStr "risks",
      toStr "recommendations"],
     toStr "delegated authority, agent powers, and principal protection"⟩),
   (toStr "license",
    ⟨[toStr "documentType", toStr "summary", toStr "parties",
      toStr "licensedProperty", toStr "scope", toStr "restrictions",
      toStr "royalties", toStr "term", toStr "terminationRights",
      toStr "intellectualProperty", toStr "risks", toStr "recommendations"],
     toStr "usage rights, licensing terms, and intellectual property protection"⟩),
   (toStr "settlement",
    ⟨[toStr "documentType", toStr "summary", toStr "parties", toStr "dispute",
      toStr "settlementAmount", toStr "paymentTerms", toStr "releases",
      toStr "conditions", toStr "confidentiality", toStr "enforcement",
      toStr "risks", toStr "recommendations"],
     toStr "dispute resolution, settlement terms, and legal releases"⟩),
   (toStr "corporate",
    ⟨[toStr "documentType", toStr "summary", toStr "entity", toStr "directors",
      toStr "shareholders", toStr "governance", toStr "voting", toStr "meetings",
      toStr "fiduciary", toStr "compliance", toStr "risks", toStr "recommendations"],
     toStr "corporate governance, shareholder rights, and regulatory compliance"⟩),
   (toStr "real_estate",
    ⟨[toStr "documentType", toStr "summary", toStr "parties", toStr "property",
      toStr "purchasePrice", toStr "financing", toStr "contingencies",
      toStr "inspections", toStr "closing", toStr "warranties", toStr "risks",
      toStr "recommendations"],
     toStr "property transfer, purchase terms, and real estate obligations"⟩),
   (toStr "court_order",
    ⟨[toStr "documentType", toStr "summary", toStr "court", toStr "parties",
      toStr "ruling", toStr "requirements", toStr "deadlines", toStr "penalties",
      toStr "compliance", toStr "appealRights", toStr "risks",
      toStr "recommendations"],
     toStr "court mandates, compliance requirements, and legal obligations"⟩),
   (toStr "judgment",
    ⟨[toStr "documentType", toStr "summary", toStr "court", toStr "parties",
      toStr "caseNumber", toStr "legalIssues", toStr "facts",
      toStr "legalPrinciples", toStr "ratio", toStr "ruling", toStr "precedents",
      toStr "implications", toStr "recommendations"],
     toStr "judicial reasoning, legal precedents, and case implications"⟩),
   (toStr "affidavit",
    ⟨[toStr "documentType", toStr "summary", toStr "deponent", toStr "purpose",
      toStr "facts", toStr "statements", toStr "verification",
      toStr "notarization", toStr "jurisdiction", toStr "consequences",
      toStr "risks", toStr "recommendations"],
     toStr "sworn statements, factual declarations, and legal attestations"⟩),
   (toStr "legal_notice",
    ⟨[toStr "documentType", toStr "summary", toStr "sender", toStr "recipient",
      toStr "issue", toStr "demands", toStr "deadlines", toStr "consequences",
      toStr "legalBasis", toStr "nextSteps", toStr "risks", toStr "recommendations"],
     toStr "legal demands, compliance requirements, and potential consequences"⟩),
   (toStr "insurance",
    ⟨[toStr "documentType", toStr "summary", toStr "parties", toStr "coverage",
      toStr "premiums", toStr "deductibles", toStr "exclusions", toStr "claims",
      toStr "beneficiaries", toStr "renewal", toStr "risks", toStr "recommendations"],
     toStr "insurance coverage, policy terms, and claim procedures"⟩),
   (toStr "loan",
    ⟨[toStr "documentType", toStr "summary", toStr "parties", toStr "loanAmount",
      toStr "interestRate", toStr "repaymentTerms", toStr "collateral",
      toStr "defaults", toStr "acceleration", toStr "guarantees", toStr "risks",
      toStr "recommendations"],
     toStr "lending terms, repayment obligations, and default consequences"⟩),
   (toStr "general",
    ⟨[toStr "documentType", toStr "summary", toStr "keyPoints", toStr "parties",
      toStr "importantDates", toStr "financialTerms", toStr "obligations",
      toStr "risks", toStr "recommendations"],
     toStr "general legal provisions and key obligations"⟩)]

/-- `_get_document_template`: total lookup,
`templates.get(document_type, templates["general"])`. -/
def get_document_template (document_type : Str) : Template :=
  (lookupKV templates document_type).getD
    ((lookupKV templates (toStr "general")).getD ⟨[], []⟩)

/-- Per-type field hints (`enhanced_descriptions`, lines 338-482; trailing
spaces reproduced from the source). -/
def enhanced_descriptions : List (Str × List (Str × Str)) :=
  [(toStr "contract",
    [(toStr "keyTerms", toStr "Most important contractual provisions"),
     (toStr "obligations", toStr "What each party must do "),
     (toStr "deliverables", toStr "Specific items/services to be provided"),
     (toStr "timeline", toStr "Important deadlines and milestones"),
     (toStr "paymentTerms", toStr "Financial obligations and schedules"),
     (toStr "terminationClauses", toStr "How the contract can end"),
     (toStr "penalties", toStr "Consequences for breach"),
     (toStr "disputeResolution", toStr "How conflicts are resolved")]),
   (toStr "nda",
    [(toStr "confidentialInfo", toStr "What information is protected"),
     (toStr "restrictions", toStr "Limitations on use and disclosure"),
     (toStr "duration", toStr "How long confidentiality lasts"),
     (toStr "exceptions", toStr "What information is not protected"),
     (toStr "returnRequirements", toStr "What must be returned/destroyed"),
     (toStr "penalties", toStr "Consequences for breach")]),
   (toStr "will",
    [(toStr "testator", toStr "Person making the will "),
     (toStr "executor", toStr "Person managing the estate "),
     (toStr "beneficiaries", toStr "Who receives assets "),
     (toStr "assets", toStr "Property and belongings being distributed "),
     (toStr "bequests", toStr "Specific gifts and distributions "),
     (toStr "guardianship", toStr "Care arrangements for minors ")]),
   (toStr "lease",
    [(toStr "property", toStr "Description of leased premises"),
     (toStr "rentAmount", toStr "Monthly/periodic payment"),
     (toStr "leaseTerm", toStr "Duration of the lease"),
     (toStr "responsibilities", toStr "Maintenance and care duties"),
     (toStr "securityDeposit", toStr "Upfront payment requirements"),
     (toStr "renewalOptions", toStr "Extension possibilities")]),
   (toStr "employment",
    [(toStr "position", toStr "Job title and role"),
     (toStr "salary", toStr "Compensation details"),
     (toStr "benefits", toStr "Healthcare, vacation, etc."),
     (toStr "duties", toStr "Job responsibilities"),
     (toStr "workingConditions", toStr "Hours, location, etc."),
     (toStr "nonCompete", toStr "Post-employment restrictions")]),
   (toStr "partnership",
    [(toStr "partners", toStr "Business partners involved"),
     (toStr "businessPurpose", toStr "What the partnership does"),
     (toStr "capitalContributions", toStr "Money/assets each partner provides"),
     (toStr "profitSharing", toStr "How profits are divided"),
     (toStr "managementStructure", toStr "Who makes decisions"),
     (toStr "dissolution", toStr "How partnership ends")]),
   (toStr "power_of_attorney",
    [(toStr "principal", toStr "Person granting power"),
     (toStr "agent", toStr "Person receiving power"),
     (toStr "powers", toStr "What the agent can do"),
     (toStr "limitations", toStr "Restrictions on authority"),
     (toStr "duration", toStr "How long powers last"),
     (toStr "revocation", toStr "How to cancel")]),
   (toStr "license",
    [(toStr "licensedProperty", toStr "What\x27s being licensed"),
     (toStr "scope", toStr "Permitted uses"),
     (toStr "restrictions", toStr "What\x27s not allowed"),
     (toStr "royalties", toStr "Payment terms"),
     (toStr "term", toStr "License duration"),
     (toStr "intellectualProperty", toStr "IP rights and protections")]),
   (toStr "settlement",
    [(toStr "dispute", toStr "What conflict is being resolved"),
     (toStr "settlementAmount", toStr "Payment details"),
     (toStr "paymentTerms", toStr "When and how payment is made"),
     (toStr "releases", toStr "What claims are being dropped"),
     (toStr "conditions", toStr "Requirements for settlement"),
     (toStr "confidentiality", toStr "Non-disclosure requirements")]),
   (toStr "corporate",
    [(toStr "entity", toStr "Corporation details"),
     (toStr "directors", toStr "Board members and roles"),
     (toStr "shareholders", toStr "Ownership structure"),
     (toStr "governance", toStr "How decisions are made"),
     (toStr "voting", toStr "Shareholder voting rights"),
     (toStr "compliance", toStr "Regulatory requirements")]),
   (toStr "real_estate",
    [(toStr "property", toStr "Real estate being transferred"),
     (toStr "purchasePrice", toStr "Sale amount"),
     (toStr "financing", toStr "Loan and mortgage terms"),
     (toStr "contingencies", toStr "Conditions for sale"),
     (toStr "inspections", toStr "Property examination requirements"),
     (toStr "closing", toStr "Transaction completion details")]),
   (toStr "court_order",
    [(toStr "court", toStr "Issuing court information"),
     (toStr "ruling", toStr "Court\x27s decision"),
     (toStr "requirements", toStr "What must be done"),
     (toStr "deadlines", toStr "Time limits for compliance"),
     (toStr "penalties", toStr "Consequences for non-compliance"),
     (toStr "appealRights", toStr "Options for challenging")]),
   (toStr "judgment",
    [(toStr "court", toStr "Court that delivered the judgment"),
     (toStr "caseNumber", toStr "Official case reference"),
     (toStr "legalIssues", toStr "Questions of law addressed"),
     (toStr "facts", toStr "Key factual findings"),
     (toStr "legalPrinciples", toStr "Legal doctrines applied"),
     (toStr "ratio", toStr "The legal reasoning behind the decision (ratio decidendi)"),
     (toStr "ruling", toStr "The final decision"),
     (toStr "precedents", toStr "Previous cases cited"),
     (toStr "implications", toStr "Impact on future cases")]),
   (toStr "affidavit",
    [(toStr "deponent", toStr "Person making the sworn statement"),
     (toStr "purpose", toStr "Reason for the affidavit"),
     (toStr "facts", toStr "Factual statements being attested"),
     (toStr "statements", toStr "Important declarations made"),
     (toStr "verification", toStr "How the statement is verified"),
     (toStr "notarization", toStr "Notary and witnessing details"),
     (toStr "jurisdiction", toStr "Legal jurisdiction for the affidavit"),
     (toStr "consequences", toStr "Implications of false statements")]),
   (toStr "legal_notice",
    [(toStr "sender", toStr "Who is sending the notice"),
     (toStr "recipient", toStr "Who must respond"),
     (toStr "issue", toStr "Problem being addressed"),
     (toStr "demands", toStr "What is required"),
     (toStr "deadlines", toStr "Time limits for response"),
     (toStr "consequences", toStr "What happens if ignored")]),
   (toStr "insurance",
    [(toStr "coverage", toStr "What is protected"),
     (toStr "premiums", toStr "Payment amounts"),
     (toStr "deductibles", toStr "Out-of-pocket costs"),
     (toStr "exclusions", toStr "What\x27s not covered"),
     (toStr "claims", toStr "How to file claims"),
     (toStr "beneficiaries", toStr "Who receives payouts")]),
   (toStr "loan",
    [(toStr "loanAmount", toStr "How much is borrowed"),
     (toStr "interestRate", toStr "Cost of borrowing"),
     (toStr "repaymentTerms", toStr "Payment schedule"),
     (toStr "collateral", toStr "Security for the loan"),
     (toStr "defaults", toStr "What happens if payments stop"),
     (toStr "guarantees", toStr "Additional security")])]

/-- A `json_fields` dict value: a plain description string (`.s`) or the
one-element description list used for `risks`/`recommendations` (`.l`). -/
inductive JDesc where
  | s (d : Str)
  | l (d : Str)
deriving DecidableEq

/-- Python interpolation of a `json_fields` value into the prompt (a list
value would render with brackets and quotes; the list branch is never
reached because those fields take the sequence-shaped rendering). -/
def JDesc.render : JDesc → Str
  | .s d => d
  | .l d => toStr "[\x27" ++ d ++ toStr "\x27]"

/-- The `json_fields` dict of `_create_analysis_prompt` (lines 327-336,
485-492): special entries for `documentType`/`summary`/`risks`/
`recommendations`, overlaid with the type-specific hints, then completed
with the generic fallback hint for every remaining template field. -/
def buildJsonFields (document_type : Str) (template : Template) :
    List (Str × JDesc) :=
  let jf1 := template.fields.foldl
    (fun jf field =>
      if field = toStr "documentType" then
        insertKV jf field
          (.s (toStr "Specific type of " ++ document_type ++ toStr " document"))
      else if field = toStr "summary" then
        insertKV jf field
          (.s (toStr "Comprehensive summary focusing on " ++ template.focus ++
               toStr " with plain language explanation"))
      else if field = toStr "risks" then
        insertKV jf field
          (.l (toStr "Detailed risk analysis with severity levels and mitigation strategies for " ++
               document_type))
      else if field = toStr "recommendations" then
        insertKV jf field
          (.l (toStr "Actionable recommendations with step-by-step guidance for " ++
               document_type))
      else jf)
    []
  let jf2 := match lookupKV enhanced_descriptions document_type with
    | some descs => descs.foldl (fun jf fd => insertKV jf fd.1 (.s fd.2)) jf1
    | none => jf1
  template.fields.foldl
    (fun jf field =>
      if (lookupKV jf field).isSome then jf
      else
        insertKV jf field
          (.s (toStr "Relevant " ++ field ++
               toStr " information for this document type")))
    jf2

/-- The 3-slot ordered-sequence schema instruction used for `risks` and
`recommendations` (line 536). -/
def seqEntryA (field : Str) : Str :=
  toStr "\n    \"" ++ field ++ toStr "\": [\n        \"First " ++
  field.dropLast ++ toStr " item with clear explanation\",\n        \"Second " ++
  field.dropLast ++ toStr " item with actionable details\",\n        \"Additional " ++
  field.dropLast ++ toStr " items as needed\"\n    ]"

/-- The 3-slot ordered-sequence schema instruction used for the inherently
plural fields (line 538). -/
def seqEntryB (field : Str) : Str :=
  toStr "\n    \"" ++ field ++ toStr "\": [\n        \"First " ++
  field.dropLast ++ toStr " item with clear explanation\",\n        \"Second " ++
  field.dropLast ++ toStr " item with practical details\",\n        \"Additional " ++
  field.dropLast ++ toStr " items as needed\"\n    ]"

/-- The scalar-string schema instruction carrying a per-field hint (line 540). -/
def scalarEntry (field hint : Str) : Str :=
  toStr "\n    \"" ++ field ++
  toStr "\": \"Provide detailed information about " ++ hint ++ toStr "\""

/-- The inline inherently-plural field list of line 537. -/
def inherentlyPlural : List Str :=
  [toStr "obligations", toStr "keyTerms", toStr "statements", toStr "facts",
   toStr "precedents", toStr "legalPrinciples"]

/-- One field of the emitted JSON schema (loop body, lines 528-540). -/
def fieldEntry (json_fields : List (Str × JDesc)) (field : Str) : Str :=
  let description := (lookupKV json_fields field).getD
    (.s (toStr "Relevant " ++ field ++ toStr " information for this document type"))
  if [toStr "risks", toStr "recommendations"].contains field then seqEntryA field
  else if inherentlyPlural.contains field then seqEntryB field
  else scalarEntry field description.render

/-- The complete schema block: every template field in order, comma-separated
(loop of lines 528-543). -/
def schemaBody (template : Template) (json_fields : List (Str × JDesc)) : Str :=
  template.fields.enum.foldl
    (fun prompt p =>
      prompt ++ fieldEntry json_fields p.2 ++
      (if p.1 < template.fields.length - 1 then toStr "," else []))
    []

/-- The instruction text preceding the schema block (lines 495-525). -/
def promptHeader (document_text document_type : Str) (template : Template) : Str :=
  toStr "You are an expert legal document analyzer and translator who specializes in DEMYSTIFYING complex legal language for both legal professionals and non-lawyers. Your mission is to make legal documents completely understandable while maintaining accuracy.\n\nDOCUMENT TO ANALYZE:\n" ++
  document_text ++
  toStr "\n\nDOCUMENT TYPE DETECTED: " ++ pyUpper document_type ++
  toStr "\nANALYSIS FOCUS: " ++ template.focus ++
  toStr "\n\nDEMYSTIFICATION MISSION:\n- Translate legal jargon into plain English while preserving legal accuracy\n- Explain WHY each provision matters and its real-world implications\n- Identify potential risks, opportunities, and red flags\n- Provide actionable insights and recommendations\n- Include severity levels for risks (LOW/MEDIUM/HIGH/CRITICAL)\n- Explain complex legal concepts with analogies when helpful\n- Highlight time-sensitive elements and deadlines\n- Warn about potential pitfalls and how to avoid them" ++
  toStr "\n\nCOMPREHENSIVE ANALYSIS REQUIREMENTS:\n1. Break down complex legal language into simple terms\n2. Explain the practical impact of each provision\n3. Identify what could go wrong and how to prevent it\n4. Provide specific, actionable recommendations\n5. Include examples where helpful\n6. Highlight urgent or time-sensitive matters\n7. Explain legal terminology in parentheses when first used\n8. Rate risks with severity levels and mitigation strategies\n\nPlease provide your analysis in the following JSON structure. Be thorough, accurate, and focus on COMPLETE DEMYSTIFICATION:\n\n\x7b"

/-- The strict-format directives following the schema block (lines 545-580). -/
def promptFooter : Str :=
  toStr "\n\x7d\n\nCRITICAL DEMYSTIFICATION INSTRUCTIONS:\n1. MANDATORY: Use ONLY the exact field names specified in the JSON structure above - NO OTHER FIELDS\n2. COMPLETE ALL FIELDS: Every field in the JSON structure must be filled with relevant information\n3. NO EXTRA FIELDS: Do not add fields like \"legalImplications\" or any other custom fields\n4. PLAIN LANGUAGE: Translate ALL legal jargon into simple, understandable terms\n5. PRACTICAL IMPACT: Explain what each provision means in real-world terms\n6. SIMPLE FORMAT: Use plain text strings and arrays of strings - no nested objects\n7. ACTIONABLE INSIGHTS: Provide specific steps people can take\n8. TIME SENSITIVITY: Highlight deadlines, expiry dates, and urgent matters\n9. EXAMPLES: Use analogies and examples to clarify complex concepts\n10. WARNING SIGNS: Identify red flags and potential problems\n11. OPPORTUNITIES: Point out beneficial provisions and advantages\n12. CONTEXT: Explain why certain provisions exist and their purpose\n13. CONSEQUENCES: Clearly state what happens if terms are violated\n14. NEXT STEPS: Recommend immediate and long-term actions\n15. COMPREHENSIVE COVERAGE: Leave no stone unturned - analyze every significant aspect" ++
  toStr "\n\nSTRICT FORMAT REQUIREMENTS:\n- Return ONLY valid JSON with the exact field names shown above\n- NO additional fields beyond what\x27s specified\n- Use simple strings and arrays of strings only\n- NO nested objects or complex structures\n- MUST include ALL fields from the template\n\nDEMYSTIFICATION GOALS:\n- Make complex legal language accessible to everyone\n- Identify hidden risks and opportunities\n- Provide actionable guidance for decision-making\n- Explain the \"so what\" factor for every provision\n- Transform legal complexity into practical understanding\n- Empower users with knowledge to make informed decisions\n\nFINAL VALIDATION: Ensure your analysis would help someone completely unfamiliar with legal terminology understand this document\x27s full implications and make informed decisions."

/-- `_create_analysis_prompt`: re-derives the document type from the (already
truncated) text, resolves the template and emits the full prompt. -/
def create_analysis_prompt (model : Str → Except Unit Str)
    (document_text : Str) : Str :=
  let document_type := detect_document_type model document_text
  let template := get_document_template document_type
  let json_fields := buildJsonFields document_type template
  promptHeader document_text document_type template ++
  schemaBody template json_fields ++ promptFooter

/-- The fixed truncation marker appended when a document exceeds the limit. -/
def truncMarker : Str := toStr "\n\n[Document truncated for analysis...]"

/-- `max_chars = 30000`, the conservative Gemini context limit. -/
def max_chars : Nat := 30000

/-- Truncation step of `analyze_document` (lines 136-138):
`if len(document_text) > max_chars: document_text = document_text[:max_chars] + marker`. -/
def truncateDoc (document_text : Str) : Str :=
  if max_chars < document_text.length then
    document_text.take max_chars ++ truncMarker
  else document_text

/-- Error conditions of the orchestrator (`analyze_document` re-raises every
failure of steps 1-3 and 6-8). -/
inductive AnalyzeErr where
  | fileNotFound
  | valueError (msg : Str)
  | extractionError (msg : Str)
  | serviceError
  | noResponse
  | pyError (e : PyError)
  | typeError
deriving DecidableEq

def emptyDocMsg : Str := toStr "No text could be extracted from the document"

/-- Python item assignment `result[k] = v`: succeeds only on a dict
(`TypeError` otherwise, e.g. when the parsed reply was a bare JSON value). -/
def setItem (j : Json) (k : Str) (v : Json) : Except AnalyzeErr Json :=
  match j with
  | .obj entries => .ok (.obj (insertKV entries k v))
  | _ => .error .typeError

/-- The injected `analysisMetadata` mapping (lines 156-161); `documentLength`
is the length of the possibly truncated text. -/
def metadataObj (documentLength : Nat) (document_type : Str) : Json :=
  .obj [
    (toStr "documentLength", .int (Int.ofNat documentLength)),
    (toStr "processingTime", .str (toStr "completed")),
    (toStr "aiModel", .str (toStr "gemini-1.5-flash")),
    (toStr "analysisType", .str (document_type ++ toStr "_specific"))
  ]

/-- `analyze_document` (lines 117-168): existence check, extraction,
empty-text check, classification of the full text, truncation, prompt
synthesis (which classifies again), model call, parse, metadata injection.
`fileExists` and `extracted` model the external file system and Text
Extractor; `model` models the Model Client. -/
def analyze_document (fileExists : Bool) (extracted : Except Str Str)
    (model : Str → Except Unit Str) : Except AnalyzeErr Json :=
  if !fileExists then .error .fileNotFound
  else
    match extracted with
    | .error m => .error (.extractionError m)
    | .ok document_text =>
      if pyStrip document_text = [] then .error (.valueError emptyDocMsg)
      else
        let document_type := detect_document_type model document_text
        let truncated_text := truncateDoc document_text
        let prompt := create_analysis_prompt model truncated_text
        match model prompt with
        | .error _ => .error .serviceError
        | .ok response_text =>
          if response_text = [] then .error .noResponse
          else
            match parse_ai_response response_text with
            | .error e => .error (.pyError e)
            | .ok analysis_result =>
              match setItem analysis_result (toStr "detectedDocumentType")
                      (.str document_type) with
              | .error e => .error e
              | .ok r1 =>
                match setItem r1 (toStr "analysisMetadata")
                        (metadataObj truncated_text.length document_type) with
                | .error e => .error e
                | .ok r2 => .ok r2

/-- Projection: a field of a successful analysis result. -/
def analysisField (res : Except AnalyzeErr Json) (k : Str) : Option Json :=
  match res with
  | .ok j => getField j k
  | .error _ => none

/-- Projection: `analysisMetadata.documentLength` of an analysis result. -/
def documentLengthOf (res : Except AnalyzeErr Json) : Option Json :=
  (analysisField res (toStr "analysisMetadata")).bind
    (fun m => getField m (toStr "documentLength"))

/-- Projection: a field of a parsed reply (`none` when parsing raised). -/
def parseField (reply : Str) (k : Str) : Option Json :=
  match parse_ai_response reply with
  | .ok j => getField j k
  | .error _ => none

/-- The claim C6 wrapping: a reply surrounded by a ```json ... ``` fence. -/
def wrapJson (reply : Str) : Str :=
  toStr "```json\n" ++ reply ++ toStr "\n```"

/-- Spec-side (claim C8): the fields rendered as ordered-sequence
instructions: `risks`, `recommendations`, and the designated inherently
plural set. -/
def specPluralNames : List Str :=
  [toStr "risks", toStr "recommendations", toStr "obligations",
   toStr "keyTerms", toStr "statements", toStr "facts", toStr "precedents",
   toStr "legalPrinciples"]

/-- Spec-side (claim C8): the per-field hint map of a document type — the
special `documentType`/`summary` hints together with the type-specific
hint map. -/
def specFieldHints (document_type : Str) (template : Template) :
    List (Str × Str) :=
  [(toStr "documentType",
    toStr "Specific type of " ++ document_type ++ toStr " document"),
   (toStr "summary",
    toStr "Comprehensive summary focusing on " ++ template.focus ++
    toStr " with plain language explanation")] ++
  (lookupKV enhanced_descriptions document_type).getD []

/-- Spec-side (claim C8): comma-separated join of the rendered entries. -/
def joinCommaSep : List Str → Str
  | [] => []
  | [x] => x
  | x :: xs => x ++ toStr "," ++ joinCommaSep xs

/-- Spec-side (claim C8): one schema entry as the claim describes it — a
3-slot ordered-sequence instruction for the plural-designated fields,
otherwise a scalar instruction carrying the per-field hint with the generic
fallback. -/
def specEntry (document_type : Str) (template : Template) (field : Str) : Str :=
  if specPluralNames.contains field then
    (if [toStr "risks", toStr "recommendations"].contains field
     then seqEntryA field else seqEntryB field)
  else
    scalarEntry field
      ((lookupKV (specFieldHints document_type template) field).getD
        (toStr "Relevant " ++ field ++
         toStr " information for this document type"))

/-- Spec-side (claim C8): the schema block as the claim describes it — the
template fields exactly in order, comma-separated. -/
def specSchemaBody (document_type : Str) : Str :=
  joinCommaSep ((get_document_template document_type).fields.map
    (specEntry document_type (get_document_template document_type)))

/-- A Model Client replying with the empty JSON object to every prompt. -/
def modelBrace : Str → Except Unit Str := fun _ => .ok (toStr "\x7b\x7d")

/-- A 30000-character document (exactly at the truncation threshold). -/
def c2Text : Str := List.replicate 30000 'a'

/-- A fenced reply whose content is not valid JSON. -/
def fencedBadReply : Str := toStr "```json\nnot json\n```"

/-- A reply whose first line is the word json. -/
def c6Reply : Str := toStr "json\n0"

/-! ### Helper lemmas -/

theorem contains_iff_mem_str {l : List Str} {a : Str} :
    l.contains a = true ↔ a ∈ l := by
  induction l with
  | nil => simp
  | cons x xs ih => simp [List.contains, List.elem_cons, ih]

theorem lookupKV_insertKV_self {α : Type} (l : List (Str × α)) (k : Str)
    (v : α) : lookupKV (insertKV l k v) k = some v := by
  induction l with
  | nil => simp [insertKV, lookupKV]
  | cons x xs ih =>
    by_cases h : x.1 = k
    · simp [insertKV, lookupKV, h]
    · simp [insertKV, lookupKV, h, ih]

theorem msg_length_pos (e : JsonErr) : 0 < (JsonErr.msg e).length := by
  cases e <;> simp [JsonErr.msg, toStr]

theorem splitOnNl_ne_nil (s : Str) : splitOnNl s ≠ [] := by
  cases s with
  | nil => simp [splitOnNl]
  | cons c cs =>
    by_cases h : c = '\n'
    · simp [splitOnNl, h]
    · simp only [splitOnNl, if_neg h]
      cases splitOnNl cs <;> simp

theorem splitOnNl_append_nl (a b : Str) :
    splitOnNl (a ++ '\n' :: b) = splitOnNl a ++ splitOnNl b := by
  induction a with
  | nil => simp [splitOnNl]
  | cons c cs ih =>
    by_cases h : c = '\n'
    · simp [splitOnNl, h, ih]
    · have hne := splitOnNl_ne_nil cs
      cases hs : splitOnNl cs with
      | nil => exact absurd hs hne
      | cons l ls =>
        simp only [List.cons_append, splitOnNl, if_neg h, List.append_eq]
        rw [ih, hs]
        simp

theorem joinNl_splitOnNl (s : Str) : joinNl (splitOnNl s) = s := by
  induction s with
  | nil => simp [splitOnNl, joinNl]
  | cons c cs ih =>
    by_cases h : c = '\n'
    · subst h
      simp only [splitOnNl, if_pos rfl]
      have hne := splitOnNl_ne_nil cs
      cases hs : splitOnNl cs with
      | nil => exact absurd hs hne
      | cons l ls =>
        rw [hs] at ih
        simp [joinNl, ih]
    · simp only [splitOnNl, if_neg h]
      have hne := splitOnNl_ne_nil cs
      cases hs : splitOnNl cs with
      | nil => exact absurd hs hne
      | cons l ls =>
        rw [hs] at ih
        cases ls with
        | nil => simp_all [joinNl]
        | cons l2 ls2 => simp_all [joinNl]

theorem dropWhile_append_of_eq_self (p : Char → Bool) (l1 l2 : Str)
    (h : l1.dropWhile p = l1) (hne : l1 ≠ []) :
    (l1 ++ l2).dropWhile p = l1 ++ l2 := by
  cases l1 with
  | nil => exact absurd rfl hne
  | cons c cs =>
    have hpc : ¬ p c = true := by
      intro hpc
      have h2 := h
      rw [List.dropWhile_cons_of_pos hpc] at h2
      have hsub : List.Sublist (cs.dropWhile p) cs := List.dropWhile_sublist p
      have hlen := hsub.length_le
      rw [h2] at hlen
      simp at hlen
    rw [List.cons_append, List.dropWhile_cons_of_neg hpc]

theorem pyStrip_eq_self_of_ends {s : Str} (h1 : s.dropWhile isPySpace = s)
    (h2 : s.reverse.dropWhile isPySpace = s.reverse) : pyStrip s = s := by
  simp [pyStrip, h1, h2]

theorem pyStrip_wrapJson (r : Str) : pyStrip (wrapJson r) = wrapJson r := by
  have h1 : (wrapJson r).dropWhile isPySpace = wrapJson r := by
    unfold wrapJson
    rw [List.append_assoc]
    exact dropWhile_append_of_eq_self isPySpace (toStr "```json\n")
      (r ++ toStr "\n```") (by decide) (by decide)
  have h2 : (wrapJson r).reverse.dropWhile isPySpace = (wrapJson r).reverse := by
    unfold wrapJson
    rw [List.reverse_append]
    exact dropWhile_append_of_eq_self isPySpace ((toStr "\n```").reverse)
      ((toStr "```json\n" ++ r).reverse) (by decide) (by decide)
  exact pyStrip_eq_self_of_ends h1 h2

theorem lastFence_append_fence (S : List Str) :
    lastFence (S ++ [fence]) = some S.length := by
  induction S with
  | nil => simp [lastFence]; decide
  | cons l ls ih => simp [lastFence, ih]

theorem take_truncateDoc (t : Str) :
    (truncateDoc t).take 4000 = t.take 4000 := by
  unfold truncateDoc
  by_cases h : max_chars < t.length
  · rw [if_pos h]
    rw [List.take_append_of_le_length]
    · rw [List.take_take]
      norm_num [max_chars]
    · rw [List.length_take]
      simp [max_chars] at h ⊢
      omega
  · rw [if_neg h]

theorem truncateDoc_length_of_le {t : Str} (h : t.length ≤ max_chars) :
    (truncateDoc t).length = t.length := by
  unfold truncateDoc
  rw [if_neg (by omega)]

theorem truncateDoc_length_of_gt {t : Str} (h : max_chars < t.length) :
    (truncateDoc t).length = max_chars + truncMarker.length := by
  unfold truncateDoc
  rw [if_pos h]
  simp [List.length_append, List.length_take]
  omega

theorem splitOnNl_wrapJson (r : Str) :
    splitOnNl (wrapJson r) = toStr "```json" :: (splitOnNl r ++ [fence]) := by
  have h1 : wrapJson r = toStr "```json" ++ '\n' :: (r ++ '\n' :: fence) := by
    unfold wrapJson
    rw [List.append_assoc]
    rfl
  rw [h1, splitOnNl_append_nl, splitOnNl_append_nl]
  have e1 : splitOnNl (toStr "```json") = [toStr "```json"] := by decide
  have e2 : splitOnNl fence = [fence] := by decide
  rw [e1, e2]
  simp

theorem stripFences_wrapJson (r : Str)
    (hjson : pyLower (pyStrip ((splitOnNl r).headD [])) ≠ toStr "json") :
    stripFences (wrapJson r) = .ok r := by
  have htake : (wrapJson r).take 3 = fence := by
    unfold wrapJson
    rw [List.append_assoc, List.take_append_of_le_length (by decide)]
    decide
  obtain ⟨h0, rest, hs⟩ : ∃ h0 rest, splitOnNl r = h0 :: rest := by
    cases hsr : splitOnNl r with
    | nil => exact absurd hsr (splitOnNl_ne_nil r)
    | cons a b => exact ⟨a, b, rfl⟩
  have hsw : splitOnNl (wrapJson r) =
      toStr "```json" :: h0 :: (rest ++ [fence]) := by
    rw [splitOnNl_wrapJson, hs]
    simp
  have hjson2 : ¬ pyLower (pyStrip h0) = toStr "json" := by
    rw [hs] at hjson
    simpa using hjson
  have hend : findFenceEnd (toStr "```json" :: h0 :: (rest ++ [fence])) =
      rest.length + 2 := by
    have hsplit : toStr "```json" :: h0 :: (rest ++ [fence]) =
        (toStr "```json" :: h0 :: rest) ++ [fence] := by simp
    rw [hsplit, findFenceEnd, lastFence_append_fence]
    simp
  unfold stripFences
  rw [if_pos htake, hsw]
  simp only [if_neg hjson2, hend]
  rw [List.drop_one]
  simp only [List.tail_cons]
  have htake2 : (h0 :: (rest ++ [fence])).take (rest.length + 2 - 1) =
      h0 :: rest := by
    have : rest.length + 2 - 1 = rest.length + 1 := by omega
    rw [this]
    simp only [List.take_succ_cons]
    rw [List.take_left]
  rw [htake2]
  rw [← hs, joinNl_splitOnNl]

theorem analyze_ok (model : Str → Except Unit Str) (t r : Str)
    (kvs : List (Str × Json)) (ht : ¬ pyStrip t = [])
    (hm : model (create_analysis_prompt model (truncateDoc t)) = .ok r)
    (hr : ¬ r = []) (hp : parse_ai_response r = .ok (.obj kvs)) :
    analyze_document true (.ok t) model =
      .ok (.obj (insertKV
        (insertKV kvs (toStr "detectedDocumentType")
          (.str (detect_document_type model t)))
        (toStr "analysisMetadata")
        (metadataObj (truncateDoc t).length (detect_document_type model t)))) := by
  unfold analyze_document
  simp only [Bool.not_true, Bool.false_eq_true, if_false, if_neg ht, hm,
    if_neg hr, hp, setItem]

/-! ### Claim theorems -/

/-- C1 counterexample: the claim fails at `judgment` — a member of the
18-value set whose template fields do not include `risks`. -/
theorem c1_counterexample :
    validTypes.contains (toStr "judgment") = true ∧
    (get_document_template (toStr "judgment")).fields.contains
      (toStr "risks") = false := by
  decide

/-- C1 (corrected): for every document type in the closed 18-value set the
template fields include `documentType`, `summary` and `recommendations`;
they include `risks` for every type except `judgment`, whose template
omits `risks`. -/
theorem c1_fields_invariant (dt : Str) (h : dt ∈ validTypes) :
    (get_document_template dt).fields.contains (toStr "documentType") = true ∧
    (get_document_template dt).fields.contains (toStr "summary") = true ∧
    (get_document_template dt).fields.contains (toStr "recommendations") = true ∧
    (dt ≠ toStr "judgment" →
      (get_document_template dt).fields.contains (toStr "risks") = true) ∧
    (dt = toStr "judgment" →
      (get_document_template dt).fields.contains (toStr "risks") = false) := by
  fin_cases h <;>
    exact ⟨by decide, by decide, by decide,
      fun h2 => by first | decide | exact absurd rfl h2,
      fun h2 => by first | decide | exact absurd h2 (by decide)⟩

/-- C1 witness: the contract template contains all four required fields. -/
theorem c1_fields_invariant_witness :
    (toStr "contract") ∈ validTypes ∧
    (get_document_template (toStr "contract")).fields.contains
      (toStr "risks") = true := by
  refine ⟨by decide, ?_⟩
  exact (c1_fields_invariant (toStr "contract") (by decide)).2.2.2.1 (by decide)

theorem documentLengthOf_insert (kvs : List (Str × Json)) (dtv : Json)
    (len : Nat) (dt : Str) :
    documentLengthOf (.ok (.obj (insertKV
      (insertKV kvs (toStr "detectedDocumentType") dtv)
      (toStr "analysisMetadata") (metadataObj len dt)))) =
    some (.int (Int.ofNat len)) := by
  simp only [documentLengthOf, analysisField, getField, lookupKV_insertKV_self,
    Option.some_bind]
  simp [metadataObj, lookupKV]

/-- C2 (corrected): for extracted text of length at most 30000 the reported
`analysisMetadata.documentLength` is the exact extracted length (the source
truncates only strictly above the threshold); for text strictly longer than
30000 it is exactly 30000 plus the marker length and the text passed onward
ends with the truncation marker. -/
theorem c2_document_length (model : Str → Except Unit Str) (t r : Str)
    (kvs : List (Str × Json)) (ht : ¬ pyStrip t = [])
    (hm : model (create_analysis_prompt model (truncateDoc t)) = .ok r)
    (hr : ¬ r = []) (hp : parse_ai_response r = .ok (.obj kvs)) :
    (t.length ≤ max_chars →
      documentLengthOf (analyze_document true (.ok t) model) =
        some (.int (Int.ofNat t.length))) ∧
    (max_chars < t.length →
      documentLengthOf (analyze_document true (.ok t) model) =
        some (.int (Int.ofNat (max_chars + truncMarker.length))) ∧
      List.IsSuffix truncMarker (truncateDoc t)) := by
  rw [analyze_ok model t r kvs ht hm hr hp, documentLengthOf_insert]
  constructor
  · intro h
    rw [truncateDoc_length_of_le h]
  · intro h
    refine ⟨by rw [truncateDoc_length_of_gt h], ⟨t.take max_chars, ?_⟩⟩
    unfold truncateDoc
    rw [if_pos h]

/-- C2 witness: a 5-character document reports documentLength 5. -/
theorem c2_document_length_witness :
    documentLengthOf (analyze_document true (.ok (toStr "hello")) modelBrace) =
      some (.int (Int.ofNat (toStr "hello").length)) := by
  exact (c2_document_length modelBrace (toStr "hello") (toStr "\x7b\x7d") []
    (by decide) rfl (by decide) rfl).1 (by decide)

/-- C2 counterexample: at length exactly 30000 the claim demands
`documentLength = 30000 + 38`, but the source does not truncate at the
threshold and reports exactly 30000. -/
theorem c2_counterexample :
    c2Text.length = 30000 ∧ truncMarker.length = 38 ∧
    ((30000 : Nat) == 30000 + truncMarker.length) = false ∧
    documentLengthOf (analyze_document true (.ok c2Text) modelBrace) =
      some (.int (Int.ofNat 30000)) := by
  have hlen : c2Text.length = 30000 := by
    rw [c2Text, List.length_replicate]
  have hds : c2Text.dropWhile isPySpace = c2Text := by
    rw [c2Text, List.dropWhile_replicate, if_neg (by decide)]
  have hstrip : pyStrip c2Text = c2Text := by
    refine pyStrip_eq_self_of_ends hds ?_
    rw [c2Text, List.reverse_replicate, List.dropWhile_replicate,
      if_neg (by decide)]
  have ht : ¬ pyStrip c2Text = [] := by
    rw [hstrip, c2Text]
    intro h
    have h2 := congrArg List.length h
    simp only [List.length_replicate, List.length_nil] at h2
    exact absurd h2 (by decide)
  refine ⟨hlen, by decide, by decide, ?_⟩
  rw [analyze_ok modelBrace c2Text (toStr "\x7b\x7d") [] ht rfl (by decide) rfl,
    documentLengthOf_insert, truncateDoc_length_of_le (by rw [hlen]; decide),
    hlen]

/-- C3 (confirmed): classification is total — for every input string and
every Model Client behaviour, the result is a member of the closed 18-label
set and never an error: any model error yields `general`, and a reply is
trimmed, lowercased, returned on an exact match and otherwise replaced by
`general`. -/
theorem c3_classification_total (model : Str → Except Unit Str) (text : Str) :
    detect_document_type model text ∈ validTypes ∧
    (∀ e, model (detectionPrompt text) = .error e →
      detect_document_type model text = toStr "general") ∧
    (∀ r, model (detectionPrompt text) = .ok r →
      detect_document_type model text =
        (if validTypes.contains (pyLower (pyStrip r)) then pyLower (pyStrip r)
         else toStr "general")) := by
  refine ⟨?_, ?_, ?_⟩
  · unfold detect_document_type
    cases hm : model (detectionPrompt text) with
    | error e => exact (by decide : toStr "general" ∈ validTypes)
    | ok r =>
      show (if validTypes.contains (pyLower (pyStrip r)) = true
            then pyLower (pyStrip r) else toStr "general") ∈ validTypes
      by_cases h : validTypes.contains (pyLower (pyStrip r)) = true
      · rw [if_pos h]
        exact contains_iff_mem_str.mp h
      · rw [if_neg h]
        decide
  · intro e he
    unfold detect_document_type
    rw [he]
  · intro r hr
    unfold detect_document_type
    rw [hr]

/-- C3 witness: a reply with surrounding whitespace and capitals classifies
to `contract`. -/
theorem c3_classification_total_witness :
    detect_document_type (fun _ => .ok (toStr "  Contract ")) [] =
      toStr "contract" := by
  have h := (c3_classification_total (fun _ => .ok (toStr "  Contract ")) []).2.2
    (toStr "  Contract ") rfl
  rw [h]
  decide

/-- C4 (code bug): a reply consisting of the single fence line raises
`IndexError` out of the response parser (`lines[1]` is accessed with only
one line present, and only `json.JSONDecodeError` is caught), contradicting
the never-raises contract. -/
theorem c4_single_fence_line_raises :
    parse_ai_response (toStr "```") = .error PyError.indexError := rfl

/-- C5 (corrected): for every reply whose trimmed, fence-stripped content is
not valid JSON, the parser returns the fixed fallback with
`error = "JSON parsing failed"`, a non-empty `errorDetails`, a one-item
`recommendations` array, and `rawResponse` equal to the trimmed,
fence-stripped content (not the original reply) truncated to 1000
characters with an ellipsis appended when longer. -/
theorem c5_fallback_shape (reply content : Str) (e : JsonErr)
    (hs : stripFences (pyStrip reply) = .ok content)
    (he : loads content = .error e) :
    parse_ai_response reply = .ok (fallbackResult (JsonErr.msg e) content) ∧
    getField (fallbackResult (JsonErr.msg e) content) (toStr "error") =
      some (.str (toStr "JSON parsing failed")) ∧
    getField (fallbackResult (JsonErr.msg e) content) (toStr "errorDetails") =
      some (.str (JsonErr.msg e)) ∧
    0 < (JsonErr.msg e).length ∧
    getField (fallbackResult (JsonErr.msg e) content) (toStr "rawResponse") =
      some (.str (if 1000 < content.length
                  then content.take 1000 ++ toStr "..." else content)) ∧
    getField (fallbackResult (JsonErr.msg e) content) (toStr "recommendations") =
      some (.arr [recommendationItem]) := by
  refine ⟨?_, rfl, rfl, msg_length_pos e, rfl, rfl⟩
  have hred : parse_ai_response reply =
      (match loads content with
       | .ok v => Except.ok v
       | .error e2 => Except.ok (fallbackResult e2.msg content)) := by
    unfold parse_ai_response
    rw [hs]
  rw [hred, he]

/-- C5 witness: an unfenced non-JSON reply produces the fallback with a
non-empty diagnostic. -/
theorem c5_fallback_shape_witness :
    parse_ai_response (toStr "not json") =
      .ok (fallbackResult (JsonErr.msg (.expectingValue 0)) (toStr "not json")) ∧
    0 < (JsonErr.msg (JsonErr.expectingValue 0)).length := by
  have h := c5_fallback_shape (toStr "not json") (toStr "not json")
    (.expectingValue 0) rfl rfl
  exact ⟨h.1, h.2.2.2.1⟩

/-- C5 counterexample: for the fenced non-JSON reply the fallback
`rawResponse` is the fence-stripped content, not the original reply
(which is 20 characters, well under the truncation limit). -/
theorem c5_counterexample :
    parseField fencedBadReply (toStr "rawResponse") =
      some (.str (toStr "not json")) ∧
    ((toStr "not json") == fencedBadReply) = false ∧
    fencedBadReply.length ≤ 1000 := by
  refine ⟨rfl, by decide, by decide⟩

/-- C6 (corrected): wrapping a reply in a ```json fence parses identically
provided the reply is already trimmed, does not itself start with a fence,
and its first line does not trim-lowercase to the word json (otherwise the
fence stripper consumes it as a language tag). -/
theorem c6_fence_wrap_transparent (r : Str) (h1 : pyStrip r = r)
    (h2 : ¬ r.take 3 = fence)
    (h3 : ¬ pyLower (pyStrip ((splitOnNl r).headD [])) = toStr "json") :
    parse_ai_response (wrapJson r) = parse_ai_response r := by
  unfold parse_ai_response
  rw [pyStrip_wrapJson, stripFences_wrapJson r h3, h1]
  have hplain : stripFences r = .ok r := by
    unfold stripFences
    rw [if_neg h2]
  rw [hplain]

/-- C6 witness: the one-line JSON reply 0 parses the same wrapped and
unwrapped. -/
theorem c6_fence_wrap_transparent_witness :
    parse_ai_response (wrapJson (toStr "0")) = parse_ai_response (toStr "0") :=
  c6_fence_wrap_transparent (toStr "0") (by decide) (by decide) (by decide)

/-- C6 counterexample: for the reply whose first line is the word json, the
wrapped form parses to the JSON value 0 while the unwrapped form yields the
parse-failure fallback object, so the two results differ. -/
theorem c6_counterexample :
    parse_ai_response (wrapJson c6Reply) = .ok (.int 0) ∧
    parse_ai_response c6Reply =
      .ok (fallbackResult (JsonErr.msg (.expectingValue 0)) c6Reply) ∧
    Json.isObj (.int 0) = false ∧
    Json.isObj (fallbackResult (JsonErr.msg (.expectingValue 0)) c6Reply) =
      true := by
  exact ⟨rfl, rfl, rfl, rfl⟩

/-- C7 (code bug): a reply that is valid JSON but not a JSON object is
returned unchanged by the parser — for the reply 42 the result is the
integer 42, not a string-keyed mapping, contradicting the parser's declared
`Dict[str, Any]` contract. -/
theorem c7_nonobject_reply_passthrough :
    parse_ai_response (toStr "42") = .ok (.int 42) ∧
    Json.isObj (.int 42) = false :=
  ⟨rfl, rfl⟩

/-- C9 (confirmed): with the Model Client a deterministic function of the
prompt, classifying the truncated text agrees with classifying the full
text, because classification inspects only a leading 4000-character window
and truncation cuts at 30000. -/
theorem c9_detection_consistent (model : Str → Except Unit Str) (text : Str) :
    detect_document_type model (truncateDoc text) =
      detect_document_type model text := by
  unfold detect_document_type
  have hp : detectionPrompt (truncateDoc text) = detectionPrompt text := by
    unfold detectionPrompt
    rw [take_truncateDoc]
  rw [hp]

/-- C10 (confirmed): when extraction yields only whitespace, analyze fails
with the EmptyDocument condition, and the result is independent of the
Model Client — the model is never invoked. -/
theorem c10_empty_document (extracted : Except Str Str) (t : Str)
    (model model2 : Str → Except Unit Str)
    (he : extracted = .ok t) (hw : pyStrip t = []) :
    analyze_document true extracted model =
      .error (.valueError emptyDocMsg) ∧
    analyze_document true extracted model =
      analyze_document true extracted model2 := by
  subst he
  unfold analyze_document
  simp [hw]

/-- C10 witness: a whitespace-only document fails with EmptyDocument. -/
theorem c10_empty_document_witness :
    analyze_document true (.ok (toStr "   ")) modelBrace =
      .error (.valueError emptyDocMsg) :=
  (c10_empty_document (.ok (toStr "   ")) (toStr "   ") modelBrace modelBrace
    rfl (by decide)).1

theorem foldl_enumFrom_joinCommaSep (jf : List (Str × JDesc)) (n : Nat) :
    ∀ (xs : List Str) (k : Nat) (acc : Str), k + xs.length = n →
    List.foldl
      (fun prompt p =>
        prompt ++ fieldEntry jf p.2 ++
        (if p.1 < n - 1 then toStr "," else []))
      acc (List.enumFrom k xs) =
    acc ++ joinCommaSep (xs.map (fieldEntry jf)) := by
  intro xs
  induction xs with
  | nil => intro k acc h; simp [joinCommaSep]
  | cons x xs ih =>
    intro k acc h
    rw [List.enumFrom_cons, List.foldl_cons]
    cases xs with
    | nil =>
      have hk : ¬ k < n - 1 := by
        simp at h
        omega
      rw [if_neg hk]
      simp [joinCommaSep]
    | cons y ys =>
      have hk : k < n - 1 := by
        simp at h
        omega
      rw [if_pos hk, ih (k + 1) (acc ++ fieldEntry jf x ++ toStr ",")
        (by simp at h ⊢; omega)]
      simp [joinCommaSep, List.append_assoc]

theorem schemaBody_eq_join (template : Template) (jf : List (Str × JDesc)) :
    schemaBody template jf =
      joinCommaSep (template.fields.map (fieldEntry jf)) := by
  unfold schemaBody
  rw [List.enum_eq_enumFrom,
    foldl_enumFrom_joinCommaSep jf template.fields.length template.fields 0 []
      (by simp)]
  rw [List.nil_append]

set_option maxRecDepth 4000

/-- C8 (confirmed): the prompt consists of the header, the schema block and
the footer, and for every resolved document type the schema block equals
the spec-side rendering: the template fields in order, comma-separated,
with `risks`/`recommendations` and the inherently plural fields rendered as
3-slot ordered-sequence instructions and every other field as a scalar
instruction carrying its per-field hint, falling back to the generic
Relevant-field hint. -/
theorem c8_schema_block (model : Str → Except Unit Str) (text dt : Str)
    (h : dt ∈ validTypes) :
    create_analysis_prompt model text =
      promptHeader text (detect_document_type model text)
        (get_document_template (detect_document_type model text)) ++
      schemaBody (get_document_template (detect_document_type model text))
        (buildJsonFields (detect_document_type model text)
          (get_document_template (detect_document_type model text))) ++
      promptFooter ∧
    schemaBody (get_document_template dt)
      (buildJsonFields dt (get_document_template dt)) = specSchemaBody dt := by
  refine ⟨rfl, ?_⟩
  rw [schemaBody_eq_join]
  unfold specSchemaBody
  congr 1
  refine List.map_congr_left ?_
  intro f hf
  fin_cases h <;> fin_cases hf <;> rfl

/-- C8 witness: the judgment template (the richest mix of plural and scalar
fields) renders to the spec-side schema block. -/
theorem c8_schema_block_witness :
    schemaBody (get_document_template (toStr "judgment"))
      (buildJsonFields (toStr "judgment")
        (get_document_template (toStr "judgment"))) =
      specSchemaBody (toStr "judgment") :=
  (c8_schema_block modelBrace [] (toStr "judgment") (by decide)).2
